import Mathlib

/-!
Shallow embedding of the EMI-collections core of this repository:

* the payment-statistics and loan helpers of `src/utils/model_helpers.py`,
* the `ContextAgent` of `src/agents/context_agent.py` (context assembly and
  risk scoring), and
* the `DecisionAgent` of `src/agents/decision_agent.py` (rule-based decision
  engine).

Modelling conventions:

* Python floats are modelled as rationals (`ℚ`); all constants appearing in
  the code (0.8, 1.5, 0.75, 1.25, ...) are exactly representable.
* Timestamps (`datetime`) are modelled as integers counting days for database
  records, and as a rational number of hours for the decision follow-up time;
  `datetime.now()` becomes an explicit `now` parameter.
* Database queries become filters over explicit lists held in a `Database`
  record; `.first()` becomes `List.head?` and a missing row becomes `none`.
* Python dictionaries read with `.get(key, default)` are modelled as records
  whose possibly-absent fields are `Option`-valued, read with `Option.getD`.
* `raise ValueError(...)` becomes `Except.error` of the message string.
* The `ContextAgent` in-memory cache is not modelled: every call is embedded
  as the cache-miss computation (the cache only replays a previous result).
* Logging calls, which return no data, are omitted.
-/

/-- A row of the `customers` table (`src/models/__init__.py`, class
`Customer`).  Only the columns read by the embedded code are kept. -/
structure Customer where
  id : Nat
  name : String
  phone_number : String
  email : String
  language_preference : String
  status : String
  deriving DecidableEq

/-- A row of the `loans` table (`src/models/__init__.py`, class `Loan`). -/
structure Loan where
  id : Nat
  customer_id : Nat
  loan_amount : ℚ
  emi_amount : ℚ
  next_due_date : Int
  outstanding_amount : ℚ
  status : String
  deriving DecidableEq

/-- A row of the `payments` table (`src/models/__init__.py`, class
`Payment`). -/
structure Payment where
  id : Nat
  loan_id : Nat
  amount : ℚ
  status : String
  payment_date : Int
  created_at : Int
  deriving DecidableEq

/-- A row of the `customer_interactions` table (`src/models/__init__.py`,
class `CustomerInteraction`). -/
structure CustomerInteraction where
  id : Nat
  customer_id : Nat
  interaction_type : String
  outcome : String
  sentiment_score : ℚ
  call_duration : Nat
  status : String
  created_at : Int
  deriving DecidableEq

/-- The whole data store seen by the agents: one list per table. -/
structure Database where
  customers : List Customer
  loans : List Loan
  payments : List Payment
  interactions : List CustomerInteraction
  deriving DecidableEq

/-- The dictionary returned by `get_payment_statistics`
(`src/utils/model_helpers.py`, lines 124-137), one field per key. -/
structure PaymentHistory where
  total_payments : Nat
  successful_payments : Nat
  failed_payments : Nat
  success_rate : ℚ
  total_amount_paid : ℚ
  on_time_payments : Nat
  late_payments : Nat
  payment_pattern : String
  deriving DecidableEq

/-- Embedding of `get_payment_statistics` (`src/utils/model_helpers.py`).
The four SQLAlchemy queries become four filters of the payments table with
the same conditions (`loan_id IN loan_ids`, `created_at >= cutoff_date`, and
a status for the counts); `safe_float` on a numeric column is the identity
here, so the amount loop is a fold. -/
def get_payment_statistics (payments : List Payment) (loan_ids : List Nat)
    (cutoff_date : Int) : PaymentHistory :=
  let all_payments := payments.filter
    (fun p => loan_ids.contains p.loan_id && decide (cutoff_date ≤ p.created_at))
  let successful_count := (payments.filter
    (fun p => loan_ids.contains p.loan_id && decide (cutoff_date ≤ p.created_at)
      && p.status == "completed")).length
  let failed_count := (payments.filter
    (fun p => loan_ids.contains p.loan_id && decide (cutoff_date ≤ p.created_at)
      && p.status == "failed")).length
  let completed_payments := payments.filter
    (fun p => loan_ids.contains p.loan_id && decide (cutoff_date ≤ p.created_at)
      && p.status == "completed")
  let total_amount : ℚ := completed_payments.foldl (fun t p => t + p.amount) 0
  let total_payments := all_payments.length
  { total_payments := total_payments
    successful_payments := successful_count
    failed_payments := failed_count
    success_rate :=
      if total_payments > 0 then (successful_count : ℚ) / (total_payments : ℚ) else 0
    total_amount_paid := total_amount
    on_time_payments := successful_count
    late_payments := 0
    payment_pattern :=
      if total_payments > 0 ∧ (successful_count : ℚ) / (total_payments : ℚ) > 0.8
      then "good"
      else if total_payments > 0 then "poor" else "new" }

/-- Embedding of `calculate_total_outstanding` (`src/utils/model_helpers.py`):
a running sum of `outstanding_amount` over the given loans. -/
def calculate_total_outstanding (loans : List Loan) : ℚ :=
  loans.foldl (fun total loan => total + loan.outstanding_amount) 0

/-- Embedding of `filter_active_loans` (`src/utils/model_helpers.py`). -/
def filter_active_loans (loans : List Loan) : List Loan :=
  loans.filter (fun loan => loan.status == "active")

/-- One entry of the `loans` list inside the customer context dictionary
(`src/agents/context_agent.py`, lines 75-85). -/
structure LoanInfo where
  loan_id : Nat
  loan_amount : ℚ
  emi_amount : ℚ
  due_date : Int
  outstanding_amount : ℚ
  status : String
  deriving DecidableEq

/-- One entry of the `recent_interactions` list inside the customer context
dictionary (`src/agents/context_agent.py`, lines 145-156). -/
structure InteractionInfo where
  interaction_id : Nat
  type : String
  outcome : String
  sentiment_score : ℚ
  call_duration : Nat
  date : Int
  status : String
  deriving DecidableEq

/-- The dictionary returned by `_get_communication_preferences`
(`src/agents/context_agent.py`, lines 199-206). -/
structure CommunicationPreferences where
  language : String
  preferred_channel : String
  timezone : String
  formality_level : String
  deriving DecidableEq

/-- The customer context dictionary assembled by
`ContextAgent.get_customer_context` (`src/agents/context_agent.py`, lines
67-97).  `risk_score` and `payment_history` are `Option`-valued because the
`DecisionAgent` reads them with `dict.get` and a default; the `ContextAgent`
always fills them with `some`. -/
structure CustomerContext where
  customer_id : Nat
  name : String
  phone_number : String
  email : String
  language_preference : String
  risk_score : Option ℚ
  status : String
  loans : List LoanInfo
  payment_history : Option PaymentHistory
  recent_interactions : List InteractionInfo
  communication_preferences : CommunicationPreferences
  best_contact_time : String
  conversation_context : String
  deriving DecidableEq

namespace ContextAgent

/-- Embedding of `ContextAgent._calculate_risk_score`
(`src/agents/context_agent.py`, lines 158-197): four sequential additive
contributions followed by `min(risk_score, 100.0)`.  `safe_str` on the
status string is the identity here. -/
def calculate_risk_score (customer : Customer) (loans : List Loan)
    (payment_history : PaymentHistory) : ℚ :=
  let risk_score : ℚ := 0
  let risk_score :=
    if payment_history.payment_pattern == "good" then risk_score + 10
    else if payment_history.payment_pattern == "poor" then risk_score + 35
    else risk_score + 25
  let total_outstanding := calculate_total_outstanding loans
  let risk_score :=
    if total_outstanding > 100000 then risk_score + 25
    else if total_outstanding > 50000 then risk_score + 15
    else risk_score + 5
  let customer_status := customer.status
  let risk_score :=
    if customer_status == "overdue" then risk_score + 20
    else if customer_status == "defaulted" then risk_score + 30
    else risk_score + 5
  let risk_score :=
    if payment_history.failed_payments > 2 then risk_score + 10
    else if payment_history.failed_payments > 0 then risk_score + 5
    else risk_score
  min risk_score 100

/-- Embedding of `ContextAgent._get_payment_history`
(`src/agents/context_agent.py`, lines 107-126) with the default
`months = 6`: the loan ids of ALL the customer loans (no status filter
here), a cutoff of `months * 30` days before `now`, and the statistics
helper.  The intermediate `payments` query of lines 118-123 is dead code
(the helper re-queries), so it is not repeated. -/
def get_payment_history (db : Database) (customer_id : Nat) (now : Int) :
    PaymentHistory :=
  let cutoff_date := now - 6 * 30
  let loan_ids := (db.loans.filter (fun l => l.customer_id == customer_id)).map
    (fun l => l.id)
  get_payment_statistics db.payments loan_ids cutoff_date

/-- Descending insertion by `created_at`, the order produced by
`ORDER BY created_at DESC` on the interactions query. -/
def insertByCreatedDesc (x : CustomerInteraction) :
    List CustomerInteraction → List CustomerInteraction
  | [] => [x]
  | y :: ys =>
      if x.created_at ≤ y.created_at then y :: insertByCreatedDesc x ys
      else x :: y :: ys

/-- Sort interactions by `created_at`, most recent first. -/
def sortByCreatedDesc : List CustomerInteraction → List CustomerInteraction
  | [] => []
  | x :: xs => insertByCreatedDesc x (sortByCreatedDesc xs)

/-- Embedding of `ContextAgent._get_recent_interactions`
(`src/agents/context_agent.py`, lines 128-156) with the default
`days = 30`: interactions of the customer created in the last 30 days,
most recent first, at most 10, projected to dictionaries. -/
def get_recent_interactions (db : Database) (customer_id : Nat) (now : Int) :
    List InteractionInfo :=
  let cutoff_date := now - 30
  let interactions := (sortByCreatedDesc (db.interactions.filter
    (fun i => i.customer_id == customer_id && decide (cutoff_date ≤ i.created_at)))).take 10
  interactions.map (fun interaction =>
    { interaction_id := interaction.id
      type := interaction.interaction_type
      outcome := interaction.outcome
      sentiment_score := interaction.sentiment_score
      call_duration := interaction.call_duration
      date := interaction.created_at
      status := interaction.status })

/-- Embedding of `ContextAgent._get_communication_preferences`
(`src/agents/context_agent.py`, lines 199-206). -/
def get_communication_preferences (customer : Customer) :
    CommunicationPreferences :=
  { language := customer.language_preference
    preferred_channel := "voice"
    timezone := "Asia/Kolkata"
    formality_level := "polite" }

/-- Embedding of `ContextAgent._determine_best_contact_time`
(`src/agents/context_agent.py`, lines 208-221). -/
def determine_best_contact_time (recent_interactions : List InteractionInfo) :
    String :=
  let successful_interactions := recent_interactions.filter
    (fun i => i.outcome == "payment_made" || i.outcome == "promised_payment")
  if !successful_interactions.isEmpty then "10:00-16:00" else "10:00-12:00"

/-- Plain rendering of a rational as text.  It stands in for the Python
format expression on the outstanding total (currency symbol and digit
grouping are abstracted; no verified property depends on this text). -/
def ratText (q : ℚ) : String := toString q.num ++ "/" ++ toString q.den

/-- Embedding of `ContextAgent._build_conversation_context`
(`src/agents/context_agent.py`, lines 223-244). -/
def build_conversation_context (customer : Customer) (loans : List Loan)
    (payment_history : PaymentHistory) : String :=
  let context_parts := ["Customer: " ++ customer.name]
  let context_parts :=
    if payment_history.payment_pattern == "good" then
      context_parts ++ ["Good payment history"]
    else if payment_history.payment_pattern == "poor" then
      context_parts ++ ["Irregular payment pattern"]
    else context_parts
  let active_loans := filter_active_loans loans
  let context_parts :=
    if !active_loans.isEmpty then
      context_parts ++
        ["Total outstanding: " ++ ratText (calculate_total_outstanding active_loans)]
    else context_parts
  String.intercalate " | " context_parts

/-- Embedding of `ContextAgent.get_customer_context`
(`src/agents/context_agent.py`, lines 29-105), on a cache miss: look up the
customer (`ValueError` if absent, as `Except.error` with the same message),
query the active loans, compute payment history, recent interactions and the
risk score, and assemble the context dictionary. -/
def get_customer_context (db : Database) (customer_id : Nat) (now : Int) :
    Except String CustomerContext :=
  match (db.customers.filter (fun c => c.id == customer_id)).head? with
  | none =>
      Except.error ("Customer with ID " ++ toString customer_id ++ " not found")
  | some customer =>
      let loans := db.loans.filter
        (fun l => l.customer_id == customer_id && l.status == "active")
      let payment_history := get_payment_history db customer_id now
      let recent_interactions := get_recent_interactions db customer_id now
      let risk_score := calculate_risk_score customer loans payment_history
      Except.ok
        { customer_id := customer.id
          name := customer.name
          phone_number := customer.phone_number
          email := customer.email
          language_preference := customer.language_preference
          risk_score := some risk_score
          status := customer.status
          loans := loans.map (fun loan =>
            { loan_id := loan.id
              loan_amount := loan.loan_amount
              emi_amount := loan.emi_amount
              due_date := loan.next_due_date
              outstanding_amount := loan.outstanding_amount
              status := loan.status })
          payment_history := some payment_history
          recent_interactions := recent_interactions
          communication_preferences := get_communication_preferences customer
          best_contact_time := determine_best_contact_time recent_interactions
          conversation_context :=
            build_conversation_context customer loans payment_history }

end ContextAgent

/-- The conversation-result dictionary handed to
`DecisionAgent.make_decision`; the two keys it reads are both read with
`dict.get`, so both fields are `Option`-valued. -/
structure ConversationResult where
  outcome : Option String
  sentiment_score : Option ℚ
  deriving DecidableEq

namespace DecisionAgent

/-- One value of the rules table returned by
`DecisionAgent._load_decision_rules` (`src/agents/decision_agent.py`, lines
19-64). -/
structure BaseRule where
  next_action : String
  priority : String
  follow_up_hours : ℚ
  deriving DecidableEq

/-- The `"unclear"` entry of the rules table. -/
def unclear_rule : BaseRule :=
  { next_action := "retry_call", priority := "low", follow_up_hours := 12 }

/-- Embedding of the dictionary built by `DecisionAgent._load_decision_rules`
(`src/agents/decision_agent.py`, lines 19-64), as key lookup: `some` on the
eight known outcome keys, `none` otherwise. -/
def decision_rules (outcome : String) : Option BaseRule :=
  if outcome == "payment_agreement" then
    some { next_action := "send_payment_link", priority := "high", follow_up_hours := 2 }
  else if outcome == "payment_requested" then
    some { next_action := "send_payment_link", priority := "high", follow_up_hours := 2 }
  else if outcome == "promised_payment" then
    some { next_action := "schedule_follow_up", priority := "medium", follow_up_hours := 24 }
  else if outcome == "payment_delay" then
    some { next_action := "schedule_follow_up", priority := "medium", follow_up_hours := 48 }
  else if outcome == "reschedule_requested" then
    some { next_action := "schedule_callback", priority := "low", follow_up_hours := 24 }
  else if outcome == "no_response" then
    some { next_action := "retry_call", priority := "medium", follow_up_hours := 6 }
  else if outcome == "payment_refusal" then
    some { next_action := "escalate_to_human", priority := "high", follow_up_hours := 4 }
  else if outcome == "unclear" then some unclear_rule
  else none

/-- Embedding of `DecisionAgent._enhance_decision_with_context`
(`src/agents/decision_agent.py`, lines 114-154): priority forcing with a
follow-up cap by risk score, then the payment-pattern multiplier, then the
recent-interaction-count multiplier.  `conversation_result` is a parameter
of the Python method but is never read. -/
def enhance_decision_with_context (base_decision : BaseRule)
    (customer_context : CustomerContext)
    (conversation_result : ConversationResult) : BaseRule :=
  let enhanced_decision := base_decision
  let risk_score := customer_context.risk_score.getD 50
  let payment_pattern :=
    customer_context.payment_history.map (fun ph => ph.payment_pattern)
  let recent_interactions := customer_context.recent_interactions
  let enhanced_decision :=
    if risk_score > 80 then
      { enhanced_decision with
          priority := "critical"
          follow_up_hours := min enhanced_decision.follow_up_hours 2 }
    else if risk_score > 60 then
      { enhanced_decision with
          priority := "high"
          follow_up_hours := min enhanced_decision.follow_up_hours 4 }
    else enhanced_decision
  let enhanced_decision :=
    if payment_pattern == some "good" then
      { enhanced_decision with
          follow_up_hours := enhanced_decision.follow_up_hours * 1.5 }
    else if payment_pattern == some "poor" then
      { enhanced_decision with
          follow_up_hours := enhanced_decision.follow_up_hours * 0.75 }
    else enhanced_decision
  if recent_interactions.length > 3 then
    { enhanced_decision with
        follow_up_hours := enhanced_decision.follow_up_hours * 1.25 }
  else enhanced_decision

/-- Embedding of `DecisionAgent._is_vip_customer`
(`src/agents/decision_agent.py`, lines 206-217). -/
def is_vip_customer (customer_context : CustomerContext) : Bool :=
  let total_loan_amount :=
    (customer_context.loans.map (fun loan => loan.loan_amount)).sum
  let payment_pattern :=
    customer_context.payment_history.map (fun ph => ph.payment_pattern)
  decide (total_loan_amount > 500000) && payment_pattern == some "good"

/-- The dictionary returned by `DecisionAgent._check_escalation_criteria`. -/
structure EscalationDecision where
  escalation_needed : Bool
  reason : Option String
  deriving DecidableEq

/-- Embedding of `DecisionAgent._check_escalation_criteria`
(`src/agents/decision_agent.py`, lines 156-204): an if/elif chain, first
match wins.  Note the outcome is read here with `dict.get` and NO default,
so it stays `Option`-valued in the comparison. -/
def check_escalation_criteria (customer_context : CustomerContext)
    (conversation_result : ConversationResult) : EscalationDecision :=
  let risk_score := customer_context.risk_score.getD 50
  let outcome := conversation_result.outcome
  let recent_interactions := customer_context.recent_interactions
  let sentiment_score := conversation_result.sentiment_score.getD 0
  if risk_score > 85 then
    { escalation_needed := true, reason := some "high_risk_customer" }
  else if sentiment_score < -0.5 then
    { escalation_needed := true, reason := some "negative_customer_sentiment" }
  else if (recent_interactions.filter
      (fun i => i.outcome == "no_response" || i.outcome == "payment_refusal")).length ≥ 3 then
    { escalation_needed := true, reason := some "multiple_failed_attempts" }
  else if outcome == some "payment_refusal" then
    { escalation_needed := true, reason := some "payment_refusal" }
  else if is_vip_customer customer_context then
    { escalation_needed := true, reason := some "vip_customer_handling" }
  else { escalation_needed := false, reason := none }

/-- Embedding of `DecisionAgent._calculate_follow_up_time`
(`src/agents/decision_agent.py`, lines 219-223): `datetime.now()` plus the
given number of hours, with the clock passed explicitly (in hours). -/
def calculate_follow_up_time (now : ℚ) (hours : ℚ) : ℚ := now + hours

/-- Embedding of `DecisionAgent._recommend_communication_channel`
(`src/agents/decision_agent.py`, lines 225-251). -/
def recommend_communication_channel (customer_context : CustomerContext)
    (outcome : String) : String :=
  let recent_interactions := customer_context.recent_interactions
  if outcome == "no_response" || outcome == "reschedule_requested" then "sms"
  else if outcome == "payment_requested" || outcome == "promised_payment" then
    "voice"
  else if outcome == "unclear" then
    let voice_attempts :=
      (recent_interactions.filter (fun i => i.type == "voice_call")).length
    if voice_attempts ≥ 2 then "sms" else "voice"
  else "voice"

/-- Embedding of `DecisionAgent._determine_message_tone`
(`src/agents/decision_agent.py`, lines 253-273). -/
def determine_message_tone (customer_context : CustomerContext)
    (sentiment_score : ℚ) : String :=
  let risk_score := customer_context.risk_score.getD 50
  let payment_pattern :=
    customer_context.payment_history.map (fun ph => ph.payment_pattern)
  if sentiment_score > 0.5 then "friendly"
  else if sentiment_score < -0.3 then "empathetic"
  else if payment_pattern == some "good" then "respectful"
  else if risk_score > 70 then "firm_but_polite"
  else "professional"

/-- Embedding of `DecisionAgent._get_additional_actions`
(`src/agents/decision_agent.py`, lines 275-303): list built by sequential
appends. -/
def get_additional_actions (customer_context : CustomerContext)
    (outcome : String) : List String :=
  let risk_score := customer_context.risk_score.getD 50
  let actions : List String := ["update_risk_score"]
  let actions :=
    if risk_score > 70 then actions ++ ["send_sms_reminder"] else actions
  let actions := actions ++ ["update_crm"]
  let actions :=
    if outcome == "promised_payment" || outcome == "payment_delay" then
      actions ++ ["schedule_payment_reminder"]
    else actions
  if outcome == "payment_requested" || outcome == "payment_agreement" then
    actions ++ ["generate_payment_link"]
  else actions

/-- The decision dictionary returned by `DecisionAgent.make_decision`
(`src/agents/decision_agent.py`, lines 88-105), one field per key. -/
structure Decision where
  next_action : String
  priority : String
  follow_up_datetime : ℚ
  escalation_needed : Bool
  escalation_reason : Option String
  recommended_channel : String
  message_tone : String
  additional_actions : List String
  deriving DecidableEq

/-- Embedding of `DecisionAgent.make_decision`
(`src/agents/decision_agent.py`, lines 66-112): defaults for the missing
keys (`outcome` to `"unclear"`, `sentiment_score` to `0.0`), base rule
lookup with the `"unclear"` rule as dictionary-lookup default, contextual
enhancement, escalation check, and assembly of the final decision.  The
unused local `customer_risk_score` (line 72) and the logging call (lines
108-110) are omitted. -/
def make_decision (conversation_result : ConversationResult)
    (customer_context : CustomerContext) (now : ℚ) : Decision :=
  let outcome := conversation_result.outcome.getD "unclear"
  let sentiment_score := conversation_result.sentiment_score.getD 0
  let base_decision := (decision_rules outcome).getD unclear_rule
  let enhanced_decision :=
    enhance_decision_with_context base_decision customer_context
      conversation_result
  let escalation_decision :=
    check_escalation_criteria customer_context conversation_result
  { next_action := enhanced_decision.next_action
    priority := enhanced_decision.priority
    follow_up_datetime :=
      calculate_follow_up_time now enhanced_decision.follow_up_hours
    escalation_needed := escalation_decision.escalation_needed
    escalation_reason := escalation_decision.reason
    recommended_channel :=
      recommend_communication_channel customer_context outcome
    message_tone := determine_message_tone customer_context sentiment_score
    additional_actions := get_additional_actions customer_context outcome }

end DecisionAgent

/-! Concrete instances of the data model, used to instantiate the theorems
below on explicit inputs. -/

/-- A customer in good standing (status `"active"`). -/
def sampleActiveCustomer : Customer :=
  { id := 1, name := "Asha", phone_number := "900", email := "asha@example.com",
    language_preference := "en", status := "active" }

/-- A customer whose status column holds `"overdue"`. -/
def sampleOverdueCustomer : Customer :=
  { id := 1, name := "Asha", phone_number := "900", email := "asha@example.com",
    language_preference := "en", status := "overdue" }

/-- A customer whose status column holds `"defaulted"`. -/
def sampleDefaultedCustomer : Customer :=
  { id := 1, name := "Asha", phone_number := "900", email := "asha@example.com",
    language_preference := "en", status := "defaulted" }

/-- An active loan with a large outstanding balance. -/
def sampleBigLoan : Loan :=
  { id := 1, customer_id := 1, loan_amount := 600000, emi_amount := 5000,
    next_due_date := 40, outstanding_amount := 200000, status := "active" }

/-- An active loan with a moderate outstanding balance. -/
def sampleSmallLoan : Loan :=
  { id := 1, customer_id := 1, loan_amount := 100000, emi_amount := 1000,
    next_due_date := 40, outstanding_amount := 60000, status := "active" }

/-- A closed loan of the same customer. -/
def sampleClosedLoan : Loan :=
  { id := 2, customer_id := 1, loan_amount := 50000, emi_amount := 500,
    next_due_date := 10, outstanding_amount := 3000, status := "closed" }

/-- A payment-history record with a poor pattern and three failed payments. -/
def samplePoorHistory : PaymentHistory :=
  { total_payments := 10, successful_payments := 2, failed_payments := 3,
    success_rate := 1/5, total_amount_paid := 2000, on_time_payments := 2,
    late_payments := 0, payment_pattern := "poor" }

/-- A payment-history record with a good pattern. -/
def sampleGoodHistory : PaymentHistory :=
  { total_payments := 10, successful_payments := 9, failed_payments := 1,
    success_rate := 9/10, total_amount_paid := 9000, on_time_payments := 9,
    late_payments := 0, payment_pattern := "good" }

/-- A single completed payment on loan 1. -/
def samplePayments : List Payment :=
  [{ id := 1, loan_id := 1, amount := 1000, status := "completed",
     payment_date := 0, created_at := 0 }]

/-- A baseline customer context: medium risk, no loans, no payment history
entry, no recent interactions. -/
def sampleContext : CustomerContext :=
  { customer_id := 1, name := "Asha", phone_number := "900",
    email := "asha@example.com", language_preference := "en",
    risk_score := some 50, status := "active", loans := [],
    payment_history := none, recent_interactions := [],
    communication_preferences :=
      { language := "en", preferred_channel := "voice",
        timezone := "Asia/Kolkata", formality_level := "polite" },
    best_contact_time := "10:00-12:00", conversation_context := "" }

/-- A prior voice-call interaction entry in a customer context. -/
def voiceInteraction (n : Nat) : InteractionInfo :=
  { interaction_id := n, type := "voice_call", outcome := "unclear",
    sentiment_score := 0, call_duration := 30, date := 0, status := "completed" }

/-- A prior interaction entry whose outcome was `"no_response"`. -/
def noResponseInteraction (n : Nat) : InteractionInfo :=
  { interaction_id := n, type := "voice_call", outcome := "no_response",
    sentiment_score := 0, call_duration := 0, date := 0, status := "completed" }

/-- A context with exactly two prior voice-call interactions. -/
def ctxTwoVoice : CustomerContext :=
  { sampleContext with
      recent_interactions := [voiceInteraction 1, voiceInteraction 2] }

/-- A context that is simultaneously high risk (score 90) and VIP
(loan principals sum to 600000 and the payment pattern is good). -/
def ctxVipHighRisk : CustomerContext :=
  { sampleContext with
      risk_score := some 90
      loans := [{ loan_id := 1, loan_amount := 600000, emi_amount := 5000,
                  due_date := 40, outstanding_amount := 200000,
                  status := "active" }]
      payment_history := some sampleGoodHistory }

/-- A VIP context whose risk score is moderate. -/
def ctxVip : CustomerContext :=
  { ctxVipHighRisk with risk_score := some 50 }

/-- A context with three recent `"no_response"` interactions. -/
def ctxFailedAttempts : CustomerContext :=
  { sampleContext with
      recent_interactions :=
        [noResponseInteraction 1, noResponseInteraction 2,
         noResponseInteraction 3] }

/-- The scenario context of claim C7: risk 90, poor payment pattern, four
recent interactions. -/
def ctxPoorRisk90 : CustomerContext :=
  { sampleContext with
      risk_score := some 90
      payment_history := some samplePoorHistory
      recent_interactions :=
        [voiceInteraction 1, voiceInteraction 2, voiceInteraction 3,
         voiceInteraction 4] }

/-- An empty data store. -/
def emptyDb : Database :=
  { customers := [], loans := [], payments := [], interactions := [] }

/-- A data store holding exactly one customer and nothing else. -/
def sampleDb : Database :=
  { customers := [sampleActiveCustomer], loans := [], payments := [],
    interactions := [] }

/-- A data store holding one customer with one active and one closed loan. -/
def dbWithLoans : Database :=
  { customers := [sampleActiveCustomer],
    loans := [sampleSmallLoan, sampleClosedLoan], payments := [],
    interactions := [] }

/-- Total extractor for a context-computation result, used to name the
concrete context produced on a sample data store. -/
def contextOr (e : Except String CustomerContext) (d : CustomerContext) :
    CustomerContext :=
  match e with
  | Except.ok c => c
  | Except.error _ => d

/-- The context computed for customer 1 on `dbWithLoans`. -/
def sampleLoanContext : CustomerContext :=
  contextOr (ContextAgent.get_customer_context dbWithLoans 1 0) sampleContext

/-- Helper: filtering with a stronger predicate yields a list at most as
long as filtering with a weaker one. -/
theorem length_filter_le_of_imp {α : Type} (l : List α) {p q : α → Bool}
    (h : ∀ a, q a = true → p a = true) :
    (l.filter q).length ≤ (l.filter p).length :=
  (List.monotone_filter_right l h).length_le

set_option maxHeartbeats 2000000 in
/-- Helper: the sequentially accumulated risk score of
`ContextAgent._calculate_risk_score` equals the clamped sum of its four
additive components. -/
theorem calculate_risk_score_eq (customer : Customer) (loans : List Loan)
    (ph : PaymentHistory) :
    ContextAgent.calculate_risk_score customer loans ph =
      min ((if ph.payment_pattern = "good" then (10 : ℚ)
            else if ph.payment_pattern = "poor" then 35 else 25) +
          (if calculate_total_outstanding loans > 100000 then 25
           else if calculate_total_outstanding loans > 50000 then 15 else 5) +
          (if customer.status = "overdue" then 20
           else if customer.status = "defaulted" then 30 else 5) +
          (if ph.failed_payments > 2 then 10
           else if ph.failed_payments > 0 then 5 else 0)) 100 := by
  simp only [ContextAgent.calculate_risk_score, beq_iff_eq]
  congr 1
  split_ifs <;> simp only [zero_add, add_zero]

/-- C1: for every customer, loan list and payment history, the risk score
returned by `ContextAgent._calculate_risk_score` lies in [0, 100]; and for
every context in which all four components take their maximal values
(payment pattern `"poor"` = 35, total outstanding above 100000 = 25, status
`"defaulted"` = 30, more than two failed payments = 10) the result
saturates at exactly 100, not above. -/
theorem risk_score_bounded_and_saturates (customer : Customer)
    (loans : List Loan) (payment_history : PaymentHistory) :
    (0 ≤ ContextAgent.calculate_risk_score customer loans payment_history ∧
      ContextAgent.calculate_risk_score customer loans payment_history ≤ 100) ∧
    (payment_history.payment_pattern = "poor" →
      calculate_total_outstanding loans > 100000 →
      customer.status = "defaulted" →
      payment_history.failed_payments > 2 →
      ContextAgent.calculate_risk_score customer loans payment_history = 100) := by
  rw [calculate_risk_score_eq]
  constructor
  · constructor
    · refine le_min ?_ (by norm_num)
      have c1 : (0:ℚ) ≤ (if payment_history.payment_pattern = "good" then (10 : ℚ)
          else if payment_history.payment_pattern = "poor" then 35 else 25) := by
        split_ifs <;> norm_num
      have c2 : (0:ℚ) ≤ (if calculate_total_outstanding loans > 100000 then (25:ℚ)
          else if calculate_total_outstanding loans > 50000 then 15 else 5) := by
        split_ifs <;> norm_num
      have c3 : (0:ℚ) ≤ (if customer.status = "overdue" then (20:ℚ)
          else if customer.status = "defaulted" then 30 else 5) := by
        split_ifs <;> norm_num
      have c4 : (0:ℚ) ≤ (if payment_history.failed_payments > 2 then (10:ℚ)
          else if payment_history.failed_payments > 0 then 5 else 0) := by
        split_ifs <;> norm_num
      have := add_le_add (add_le_add (add_le_add c1 c2) c3) c4
      simpa using this
    · exact min_le_right _ _
  · intro h1 h2 h3 h4
    rw [h1]
    rw [if_neg (by decide), if_pos rfl, if_pos h2, if_neg (by simp [h3]), if_pos h3,
      if_pos h4]
    norm_num [min_def]

/-- C1 witness: a defaulted customer with a 200000 outstanding loan and a
poor history with three failed payments scores exactly 100. -/
theorem risk_score_bounded_and_saturates_witness :
    ContextAgent.calculate_risk_score sampleDefaultedCustomer [sampleBigLoan]
      samplePoorHistory = 100 :=
  (risk_score_bounded_and_saturates sampleDefaultedCustomer [sampleBigLoan]
      samplePoorHistory).2 rfl
    (by norm_num [calculate_total_outstanding, sampleBigLoan]) rfl
    (by norm_num [samplePoorHistory])

/-- C2 counterexample: a customer with zero loans and zero payments whose
status column holds `"overdue"` has risk score 50, not 35, refuting the
claim that every customer with zero loans and zero payments scores exactly
35. -/
theorem risk_score_zero_history_counterexample :
    ContextAgent.calculate_risk_score sampleOverdueCustomer []
        (get_payment_statistics [] [] 0) = 50 ∧
      ContextAgent.calculate_risk_score sampleOverdueCustomer []
        (get_payment_statistics [] [] 0) ≠ 35 := by
  have h : ContextAgent.calculate_risk_score sampleOverdueCustomer []
      (get_payment_statistics [] [] 0) = 50 := by
    rw [calculate_risk_score_eq]
    simp +decide [get_payment_statistics, sampleOverdueCustomer,
      calculate_total_outstanding]
    norm_num [min_def]
  exact ⟨h, by rw [h]; norm_num⟩

/-- C2 (amended): the risk score equals the sum of the four fixed additive
contributions (+10/+35/+25 for payment pattern good/poor/otherwise; +25 if
total outstanding is above 100000, +15 if above 50000, else +5; +20 for
status `"overdue"`, +30 for `"defaulted"`, else +5; +10 if failed payments
exceed 2, +5 if positive, else +0) clamped to at most 100; consequently,
every customer with zero loans and zero payments whose status is neither
`"overdue"` nor `"defaulted"` (for instance the active customer of the spec
scenario) has risk score exactly 35 and payment pattern `"new"`. -/
theorem risk_score_clamped_sum_and_new_customer (customer : Customer)
    (loans : List Loan) (payments : List Payment) (loan_ids : List Nat)
    (cutoff_date : Int) :
    (∀ ph : PaymentHistory,
      ContextAgent.calculate_risk_score customer loans ph =
        min ((if ph.payment_pattern = "good" then (10 : ℚ)
              else if ph.payment_pattern = "poor" then 35 else 25) +
            (if calculate_total_outstanding loans > 100000 then 25
             else if calculate_total_outstanding loans > 50000 then 15 else 5) +
            (if customer.status = "overdue" then 20
             else if customer.status = "defaulted" then 30 else 5) +
            (if ph.failed_payments > 2 then 10
             else if ph.failed_payments > 0 then 5 else 0)) 100) ∧
    ((get_payment_statistics payments loan_ids cutoff_date).total_payments = 0 →
      customer.status ≠ "overdue" → customer.status ≠ "defaulted" →
      ContextAgent.calculate_risk_score customer []
          (get_payment_statistics payments loan_ids cutoff_date) = 35 ∧
        (get_payment_statistics payments loan_ids cutoff_date).payment_pattern =
          "new") := by
  constructor
  · intro ph
    exact calculate_risk_score_eq customer loans ph
  · intro h0 hs1 hs2
    simp only [get_payment_statistics] at h0
    have hnew : (get_payment_statistics payments loan_ids cutoff_date).payment_pattern
        = "new" := by
      simp only [get_payment_statistics]
      rw [if_neg (fun hc => absurd hc.1 (by rw [h0]; exact lt_irrefl 0)),
        if_neg (by rw [h0]; exact lt_irrefl 0)]
    have hf2 : (get_payment_statistics payments loan_ids cutoff_date).failed_payments
        = 0 := by
      have hle := length_filter_le_of_imp payments
        (p := fun p => loan_ids.contains p.loan_id &&
          decide (cutoff_date ≤ p.created_at))
        (q := fun p => loan_ids.contains p.loan_id &&
          decide (cutoff_date ≤ p.created_at) && p.status == "failed")
        (fun a ha => by
          simp only [Bool.and_eq_true] at ha ⊢
          exact ha.1)
      simp only [get_payment_statistics]
      omega
    refine ⟨?_, hnew⟩
    rw [calculate_risk_score_eq, hnew, hf2]
    rw [if_neg (by decide), if_neg (by decide), if_neg hs1, if_neg hs2]
    norm_num [calculate_total_outstanding, min_def]

/-- C2 witness: an active customer with zero loans and zero payments scores
exactly 35 and the computed payment pattern is `"new"`. -/
theorem risk_score_clamped_sum_and_new_customer_witness :
    ContextAgent.calculate_risk_score sampleActiveCustomer []
        (get_payment_statistics [] [] 0) = 35 ∧
      (get_payment_statistics [] [] 0).payment_pattern = "new" :=
  (risk_score_clamped_sum_and_new_customer sampleActiveCustomer [] [] [] 0).2
    (by simp [get_payment_statistics])
    (by simp +decide [sampleActiveCustomer])
    (by simp +decide [sampleActiveCustomer])

/-- C3: for every payment history computed by `get_payment_statistics`, the
payment pattern is `"new"` if and only if the total payment count is 0;
when the total is positive the pattern is `"good"` exactly when the success
rate exceeds 0.8 and `"poor"` otherwise; and the success rate equals
successful over total payments, 0 when the total is 0. -/
theorem payment_pattern_spec (payments : List Payment) (loan_ids : List Nat)
    (cutoff_date : Int) :
    ((get_payment_statistics payments loan_ids cutoff_date).payment_pattern =
        "new" ↔
      (get_payment_statistics payments loan_ids cutoff_date).total_payments = 0) ∧
    ((get_payment_statistics payments loan_ids cutoff_date).total_payments > 0 →
      (get_payment_statistics payments loan_ids cutoff_date).payment_pattern =
        (if (get_payment_statistics payments loan_ids cutoff_date).success_rate
            > 0.8 then "good" else "poor")) ∧
    (get_payment_statistics payments loan_ids cutoff_date).success_rate =
      (if (get_payment_statistics payments loan_ids cutoff_date).total_payments
          > 0 then
        ((get_payment_statistics payments loan_ids
              cutoff_date).successful_payments : ℚ) /
          ((get_payment_statistics payments loan_ids
              cutoff_date).total_payments : ℚ)
       else 0) := by
  refine ⟨?_, ?_, ?_⟩
  · simp only [get_payment_statistics]
    split_ifs with h1 h2
    · exact ⟨fun hg => absurd hg (by decide), fun hL => absurd h1.1 (by omega)⟩
    · exact ⟨fun hg => absurd hg (by decide), fun hL => absurd h2 (by omega)⟩
    · exact ⟨fun _ => by omega, fun _ => rfl⟩
  · intro hpos
    simp only [get_payment_statistics] at hpos ⊢
    rw [if_pos hpos]
    split_ifs with h1 h2 h3 <;> simp_all +decide
    exact absurd h3 (not_lt.mpr h1)
  · simp only [get_payment_statistics]

/-- C3 witness: on a single completed payment the total is positive and the
pattern agrees with the success-rate test. -/
theorem payment_pattern_spec_witness :
    (get_payment_statistics samplePayments [1] 0).total_payments > 0 ∧
      (get_payment_statistics samplePayments [1] 0).payment_pattern =
        (if (get_payment_statistics samplePayments [1] 0).success_rate > 0.8
         then "good" else "poor") :=
  ⟨by simp +decide [get_payment_statistics, samplePayments],
    (payment_pattern_spec samplePayments [1] 0).2.1
      (by simp +decide [get_payment_statistics, samplePayments])⟩

/-- C5 (amended): `DecisionAgent.make_decision` is deterministic given the
call time: for identical conversation result and context, two calls agree
on every field except `follow_up_datetime`, and `follow_up_datetime` is the
call time plus an offset that is itself determined by the inputs, so calls
made at the same instant return identical decisions. -/
theorem make_decision_deterministic_given_clock
    (conversation_result : ConversationResult)
    (customer_context : CustomerContext) (now1 now2 : ℚ) :
    (DecisionAgent.make_decision conversation_result customer_context now1).next_action =
      (DecisionAgent.make_decision conversation_result customer_context now2).next_action ∧
    (DecisionAgent.make_decision conversation_result customer_context now1).priority =
      (DecisionAgent.make_decision conversation_result customer_context now2).priority ∧
    (DecisionAgent.make_decision conversation_result customer_context now1).escalation_needed =
      (DecisionAgent.make_decision conversation_result customer_context now2).escalation_needed ∧
    (DecisionAgent.make_decision conversation_result customer_context now1).escalation_reason =
      (DecisionAgent.make_decision conversation_result customer_context now2).escalation_reason ∧
    (DecisionAgent.make_decision conversation_result customer_context now1).recommended_channel =
      (DecisionAgent.make_decision conversation_result customer_context now2).recommended_channel ∧
    (DecisionAgent.make_decision conversation_result customer_context now1).message_tone =
      (DecisionAgent.make_decision conversation_result customer_context now2).message_tone ∧
    (DecisionAgent.make_decision conversation_result customer_context now1).additional_actions =
      (DecisionAgent.make_decision conversation_result customer_context now2).additional_actions ∧
    (DecisionAgent.make_decision conversation_result customer_context now1).follow_up_datetime
        - now1 =
      (DecisionAgent.make_decision conversation_result customer_context now2).follow_up_datetime
        - now2 := by
  refine ⟨?_, ?_, ?_, ?_, ?_, ?_, ?_, ?_⟩
  all_goals simp only [DecisionAgent.make_decision,
    DecisionAgent.calculate_follow_up_time]
  ring

/-- C5 counterexample: two calls of `DecisionAgent.make_decision` with
identical conversation result and context but made at different clock
times (here 0 and 1) return different decisions, because
`follow_up_datetime` is computed from `datetime.now()`. -/
theorem make_decision_clock_counterexample :
    DecisionAgent.make_decision ⟨some "unclear", some 0⟩ sampleContext 0 ≠
      DecisionAgent.make_decision ⟨some "unclear", some 0⟩ sampleContext 1 := by
  intro h
  have h2 := congrArg DecisionAgent.Decision.follow_up_datetime h
  simp +decide [DecisionAgent.make_decision, DecisionAgent.calculate_follow_up_time,
    DecisionAgent.enhance_decision_with_context, DecisionAgent.unclear_rule,
    DecisionAgent.decision_rules, sampleContext] at h2

/-- C9: `DecisionAgent.make_decision` is total and treats absent input keys
by defaults: a conversation result without an `outcome` key behaves exactly
like outcome `"unclear"`, a missing `sentiment_score` behaves like 0.0, and
a context without a `risk_score` key behaves like risk score 50. -/
theorem make_decision_defaults (customer_context : CustomerContext)
    (o : Option String) (s : Option ℚ) (now : ℚ) :
    DecisionAgent.make_decision ⟨none, s⟩ customer_context now =
      DecisionAgent.make_decision ⟨some "unclear", s⟩ customer_context now ∧
    DecisionAgent.make_decision ⟨o, none⟩ customer_context now =
      DecisionAgent.make_decision ⟨o, some 0⟩ customer_context now ∧
    DecisionAgent.make_decision ⟨o, s⟩
        { customer_context with risk_score := none } now =
      DecisionAgent.make_decision ⟨o, s⟩
        { customer_context with risk_score := some 50 } now := by
  refine ⟨?_, ?_, ?_⟩ <;>
    simp +decide [DecisionAgent.make_decision, DecisionAgent.check_escalation_criteria,
      DecisionAgent.enhance_decision_with_context, DecisionAgent.determine_message_tone,
      DecisionAgent.get_additional_actions, DecisionAgent.recommend_communication_channel,
      DecisionAgent.is_vip_customer]

/-- C4 counterexample: on a context with two prior voice-call interactions,
the unknown outcome `"xyz"` gets recommended channel `"voice"` while
outcome `"unclear"` gets `"sms"`, so the two decisions are not identical in
every field. -/
theorem unknown_outcome_channel_counterexample :
    (DecisionAgent.make_decision ⟨some "xyz", some 0⟩ ctxTwoVoice 0).recommended_channel
        = "voice" ∧
    (DecisionAgent.make_decision ⟨some "unclear", some 0⟩ ctxTwoVoice 0).recommended_channel
        = "sms" ∧
    DecisionAgent.make_decision ⟨some "xyz", some 0⟩ ctxTwoVoice 0 ≠
      DecisionAgent.make_decision ⟨some "unclear", some 0⟩ ctxTwoVoice 0 := by
  refine ⟨?_, ?_, ?_⟩
  · simp +decide [DecisionAgent.make_decision,
      DecisionAgent.recommend_communication_channel, ctxTwoVoice, sampleContext,
      voiceInteraction]
  · simp +decide [DecisionAgent.make_decision,
      DecisionAgent.recommend_communication_channel, ctxTwoVoice, sampleContext,
      voiceInteraction]
  · intro h
    have h2 := congrArg DecisionAgent.Decision.recommended_channel h
    simp +decide [DecisionAgent.make_decision,
      DecisionAgent.recommend_communication_channel, ctxTwoVoice, sampleContext,
      voiceInteraction] at h2

/-- C4 (amended): for an outcome string outside the fixed vocabulary, the
decision agrees with the decision for `"unclear"` in every field except
`recommended_channel`: the unknown outcome always gets channel `"voice"`,
so the full decisions coincide exactly when the context has fewer than two
prior voice-call interactions. -/
theorem unknown_outcome_behaves_like_unclear (o : String)
    (customer_context : CustomerContext) (s : Option ℚ) (now : ℚ)
    (h1 : o ≠ "payment_agreement") (h2 : o ≠ "payment_requested")
    (h3 : o ≠ "promised_payment") (h4 : o ≠ "payment_delay")
    (h5 : o ≠ "reschedule_requested") (h6 : o ≠ "no_response")
    (h7 : o ≠ "payment_refusal") (h8 : o ≠ "unclear") :
    (DecisionAgent.make_decision ⟨some o, s⟩ customer_context now).next_action =
      (DecisionAgent.make_decision ⟨some "unclear", s⟩ customer_context now).next_action ∧
    (DecisionAgent.make_decision ⟨some o, s⟩ customer_context now).priority =
      (DecisionAgent.make_decision ⟨some "unclear", s⟩ customer_context now).priority ∧
    (DecisionAgent.make_decision ⟨some o, s⟩ customer_context now).follow_up_datetime =
      (DecisionAgent.make_decision ⟨some "unclear", s⟩ customer_context now).follow_up_datetime ∧
    (DecisionAgent.make_decision ⟨some o, s⟩ customer_context now).escalation_needed =
      (DecisionAgent.make_decision ⟨some "unclear", s⟩ customer_context now).escalation_needed ∧
    (DecisionAgent.make_decision ⟨some o, s⟩ customer_context now).escalation_reason =
      (DecisionAgent.make_decision ⟨some "unclear", s⟩ customer_context now).escalation_reason ∧
    (DecisionAgent.make_decision ⟨some o, s⟩ customer_context now).message_tone =
      (DecisionAgent.make_decision ⟨some "unclear", s⟩ customer_context now).message_tone ∧
    (DecisionAgent.make_decision ⟨some o, s⟩ customer_context now).additional_actions =
      (DecisionAgent.make_decision ⟨some "unclear", s⟩ customer_context now).additional_actions ∧
    (DecisionAgent.make_decision ⟨some o, s⟩ customer_context now).recommended_channel =
      "voice" ∧
    ((customer_context.recent_interactions.filter
        (fun i => i.type == "voice_call")).length < 2 →
      DecisionAgent.make_decision ⟨some o, s⟩ customer_context now =
        DecisionAgent.make_decision ⟨some "unclear", s⟩ customer_context now) := by
  have hbase : DecisionAgent.decision_rules o = none := by
    simp [DecisionAgent.decision_rules, h1, h2, h3, h4, h5, h6, h7, h8]
  have he : DecisionAgent.enhance_decision_with_context DecisionAgent.unclear_rule
        customer_context ⟨some o, s⟩ =
      DecisionAgent.enhance_decision_with_context DecisionAgent.unclear_rule
        customer_context ⟨some "unclear", s⟩ := rfl
  refine ⟨?_, ?_, ?_, ?_, ?_, ?_, ?_, ?_, ?_⟩
  on_goal 9 => intro hlt
  on_goal 9 =>
    have hge : ¬((customer_context.recent_interactions.filter
        (fun i => i.type == "voice_call")).length ≥ 2) := by omega
  all_goals
    simp +decide [DecisionAgent.make_decision, hbase, DecisionAgent.decision_rules,
      DecisionAgent.check_escalation_criteria,
      DecisionAgent.recommend_communication_channel,
      DecisionAgent.get_additional_actions, he, h1, h2, h3, h4, h5, h6, h7, h8]
  rw [if_neg hge]

/-- C4 witness: on a context with no prior voice-call interactions the
unknown outcome `"xyz"` produces a decision identical to `"unclear"`. -/
theorem unknown_outcome_behaves_like_unclear_witness :
    DecisionAgent.make_decision ⟨some "xyz", some 0⟩ sampleContext 0 =
      DecisionAgent.make_decision ⟨some "unclear", some 0⟩ sampleContext 0 :=
  (unknown_outcome_behaves_like_unclear "xyz" sampleContext (some 0) 0
    (by decide) (by decide) (by decide) (by decide) (by decide) (by decide)
    (by decide) (by decide)).2.2.2.2.2.2.2.2
    (by simp [sampleContext])

/-- C6: `DecisionAgent._check_escalation_criteria` evaluates its five
criteria in fixed order with the first match determining the reason:
risk score above 85, then sentiment below -0.5, then at least three recent
interactions with outcome no_response or payment_refusal, then outcome
payment_refusal, then VIP; in particular a context with risk score above
85 escalates with reason `"high_risk_customer"` even when it also satisfies
the VIP criteria. -/
theorem escalation_first_match_order (customer_context : CustomerContext)
    (conversation_result : ConversationResult) :
    (customer_context.risk_score.getD 50 > 85 →
      DecisionAgent.check_escalation_criteria customer_context conversation_result =
        { escalation_needed := true, reason := some "high_risk_customer" }) ∧
    (¬(customer_context.risk_score.getD 50 > 85) →
      conversation_result.sentiment_score.getD 0 < -0.5 →
      DecisionAgent.check_escalation_criteria customer_context conversation_result =
        { escalation_needed := true, reason := some "negative_customer_sentiment" }) ∧
    (¬(customer_context.risk_score.getD 50 > 85) →
      ¬(conversation_result.sentiment_score.getD 0 < -0.5) →
      (customer_context.recent_interactions.filter
        (fun i => i.outcome == "no_response" || i.outcome == "payment_refusal")).length ≥ 3 →
      DecisionAgent.check_escalation_criteria customer_context conversation_result =
        { escalation_needed := true, reason := some "multiple_failed_attempts" }) ∧
    (¬(customer_context.risk_score.getD 50 > 85) →
      ¬(conversation_result.sentiment_score.getD 0 < -0.5) →
      ¬((customer_context.recent_interactions.filter
        (fun i => i.outcome == "no_response" || i.outcome == "payment_refusal")).length ≥ 3) →
      conversation_result.outcome = some "payment_refusal" →
      DecisionAgent.check_escalation_criteria customer_context conversation_result =
        { escalation_needed := true, reason := some "payment_refusal" }) ∧
    (¬(customer_context.risk_score.getD 50 > 85) →
      ¬(conversation_result.sentiment_score.getD 0 < -0.5) →
      ¬((customer_context.recent_interactions.filter
        (fun i => i.outcome == "no_response" || i.outcome == "payment_refusal")).length ≥ 3) →
      conversation_result.outcome ≠ some "payment_refusal" →
      DecisionAgent.is_vip_customer customer_context = true →
      DecisionAgent.check_escalation_criteria customer_context conversation_result =
        { escalation_needed := true, reason := some "vip_customer_handling" }) := by
  refine ⟨?_, ?_, ?_, ?_, ?_⟩
  · intro hr
    simp [DecisionAgent.check_escalation_criteria, hr]
  · intro hr hs
    simp [DecisionAgent.check_escalation_criteria, hr, hs]
  · intro hr hs hm
    simp [DecisionAgent.check_escalation_criteria, hr, hs, hm]
  · intro hr hs hm hp
    simp [DecisionAgent.check_escalation_criteria, hr, hs, hm, hp]
  · intro hr hs hm hp hv
    simp [DecisionAgent.check_escalation_criteria, hr, hs, hm, hp, hv]

/-- C7: the contextual adjustment applies the risk-score cap before the
multiplicative factors: for outcome `"no_response"` (base 6 hours) with
risk score 90, payment pattern `"poor"` and four recent interactions, the
priority becomes `"critical"` and the follow-up offset is
min(6,2) * 0.75 * 1.25 = 1.875 hours. -/
theorem contextual_adjustment_order_scenario
    (conversation_result : ConversationResult)
    (customer_context : CustomerContext) (now : ℚ)
    (ho : conversation_result.outcome = some "no_response")
    (hr : customer_context.risk_score = some 90)
    (hp : customer_context.payment_history.map (fun ph => ph.payment_pattern) =
      some "poor")
    (hn : customer_context.recent_interactions.length = 4) :
    (DecisionAgent.make_decision conversation_result customer_context now).priority
        = "critical" ∧
    (DecisionAgent.make_decision conversation_result customer_context
        now).follow_up_datetime = now + 1.875 := by
  have hmin : min (6 : ℚ) 2 = 2 := by norm_num
  constructor <;>
    simp +decide [DecisionAgent.make_decision, DecisionAgent.decision_rules,
      DecisionAgent.enhance_decision_with_context,
      DecisionAgent.calculate_follow_up_time, ho, hr, hp, hn, hmin] <;>
    norm_num

/-- C6 witness: concrete contexts triggering each of the five escalation
reasons in turn; the first one is simultaneously high risk and VIP and
escalates with reason `"high_risk_customer"`. -/
theorem escalation_first_match_order_witness :
    DecisionAgent.check_escalation_criteria ctxVipHighRisk
        ⟨some "unclear", some 0⟩ =
      { escalation_needed := true, reason := some "high_risk_customer" } ∧
    DecisionAgent.check_escalation_criteria sampleContext
        ⟨some "unclear", some (-0.6)⟩ =
      { escalation_needed := true, reason := some "negative_customer_sentiment" } ∧
    DecisionAgent.check_escalation_criteria ctxFailedAttempts
        ⟨some "unclear", some 0⟩ =
      { escalation_needed := true, reason := some "multiple_failed_attempts" } ∧
    DecisionAgent.check_escalation_criteria sampleContext
        ⟨some "payment_refusal", some 0⟩ =
      { escalation_needed := true, reason := some "payment_refusal" } ∧
    DecisionAgent.check_escalation_criteria ctxVip ⟨some "unclear", some 0⟩ =
      { escalation_needed := true, reason := some "vip_customer_handling" } :=
  ⟨(escalation_first_match_order ctxVipHighRisk ⟨some "unclear", some 0⟩).1
      (by norm_num [ctxVipHighRisk, sampleContext]),
   (escalation_first_match_order sampleContext ⟨some "unclear", some (-0.6)⟩).2.1
      (by norm_num [sampleContext]) (by norm_num),
   (escalation_first_match_order ctxFailedAttempts ⟨some "unclear", some 0⟩).2.2.1
      (by norm_num [ctxFailedAttempts, sampleContext]) (by norm_num)
      (by simp +decide [ctxFailedAttempts, sampleContext, noResponseInteraction]),
   (escalation_first_match_order sampleContext ⟨some "payment_refusal", some 0⟩).2.2.2.1
      (by norm_num [sampleContext]) (by norm_num) (by simp [sampleContext]) rfl,
   (escalation_first_match_order ctxVip ⟨some "unclear", some 0⟩).2.2.2.2
      (by norm_num [ctxVip, ctxVipHighRisk, sampleContext]) (by norm_num)
      (by simp [ctxVip, ctxVipHighRisk, sampleContext]) (by decide)
      (by norm_num [DecisionAgent.is_vip_customer, ctxVip, ctxVipHighRisk,
        sampleContext, sampleGoodHistory])⟩

/-- C7 witness: the scenario evaluated on a concrete context with risk 90,
poor pattern and four recent interactions. -/
theorem contextual_adjustment_order_scenario_witness :
    (DecisionAgent.make_decision ⟨some "no_response", some (-0.6)⟩ ctxPoorRisk90
        0).priority = "critical" ∧
    (DecisionAgent.make_decision ⟨some "no_response", some (-0.6)⟩ ctxPoorRisk90
        0).follow_up_datetime = 0 + 1.875 :=
  contextual_adjustment_order_scenario ⟨some "no_response", some (-0.6)⟩
    ctxPoorRisk90 0 rfl rfl rfl rfl

/-- C8: `ContextAgent.get_customer_context` fails with the not-found error
exactly when no customer row has the requested id, and the error carries
the original message; when a matching customer exists the call succeeds,
even on a store with no loans, payments or interactions (those lookups
just return empty collections). -/
theorem get_customer_context_notfound_iff (db : Database) (customer_id : Nat)
    (now : Int) :
    ((∀ c ∈ db.customers, c.id ≠ customer_id) →
      ContextAgent.get_customer_context db customer_id now =
        Except.error ("Customer with ID " ++ toString customer_id ++
          " not found")) ∧
    ((∃ c ∈ db.customers, c.id = customer_id) →
      (ContextAgent.get_customer_context db customer_id now).isOk = true) := by
  constructor
  · intro h
    have hfil : db.customers.filter (fun c => c.id == customer_id) = [] :=
      List.filter_eq_nil_iff.mpr (fun c hc => by simp [h c hc])
    simp [ContextAgent.get_customer_context, hfil]
  · rintro ⟨c, hc, hid⟩
    have hmem : c ∈ db.customers.filter (fun cc => cc.id == customer_id) :=
      List.mem_filter.mpr ⟨hc, by simp [hid]⟩
    cases hh : (db.customers.filter (fun cc => cc.id == customer_id)).head? with
    | none =>
        rw [List.head?_eq_none_iff] at hh
        rw [hh] at hmem
        cases hmem
    | some customer =>
        simp [ContextAgent.get_customer_context, hh, Except.isOk, Except.toBool]

/-- C8 witness: on an empty store the lookup of customer 7 returns the
not-found error, and on a store holding only customer 1 (no loans,
payments or interactions) the lookup succeeds. -/
theorem get_customer_context_notfound_iff_witness :
    ContextAgent.get_customer_context emptyDb 7 0 =
      Except.error ("Customer with ID " ++ toString 7 ++ " not found") ∧
    (ContextAgent.get_customer_context sampleDb 1 0).isOk = true :=
  ⟨(get_customer_context_notfound_iff emptyDb 7 0).1 (by simp [emptyDb]),
   (get_customer_context_notfound_iff sampleDb 1 0).2
     ⟨sampleActiveCustomer, by simp [sampleDb], by simp [sampleActiveCustomer]⟩⟩

/-- C10: every loan in the `loans` field of a context returned by
`ContextAgent.get_customer_context` has status `"active"`, and the field is
exactly the active-filtered projection of the customer loans, so the
outstanding total used in risk scoring and the loan-principal sum used by
the VIP check range over active loans only. -/
theorem context_loans_active_only (db : Database) (customer_id : Nat)
    (now : Int) (ctx : CustomerContext)
    (h : ContextAgent.get_customer_context db customer_id now = Except.ok ctx) :
    ctx.loans.all (fun loan => loan.status == "active") = true ∧
    ctx.loans = (db.loans.filter
        (fun l => l.customer_id == customer_id && l.status == "active")).map
      (fun loan =>
        { loan_id := loan.id, loan_amount := loan.loan_amount,
          emi_amount := loan.emi_amount, due_date := loan.next_due_date,
          outstanding_amount := loan.outstanding_amount,
          status := loan.status }) := by
  cases hh : (db.customers.filter (fun c => c.id == customer_id)).head? with
  | none => simp [ContextAgent.get_customer_context, hh] at h
  | some customer =>
      simp only [ContextAgent.get_customer_context, hh, Except.ok.injEq] at h
      subst h
      constructor
      · dsimp only
        simp only [List.all_eq_true]
        intro loan hl
        obtain ⟨l, hlf, rfl⟩ := List.mem_map.mp hl
        have hpred := (List.mem_filter.mp hlf).2
        simp only [Bool.and_eq_true] at hpred
        simpa using hpred.2
      · rfl

/-- C10 witness: on a store where customer 1 has one active and one closed
loan, the computed context contains only active loans. -/
theorem context_loans_active_only_witness :
    ContextAgent.get_customer_context dbWithLoans 1 0 =
      Except.ok sampleLoanContext ∧
    sampleLoanContext.loans.all (fun loan => loan.status == "active") = true :=
  ⟨rfl, (context_loans_active_only dbWithLoans 1 0 sampleLoanContext rfl).1⟩
